import Mathlib

/-!
Verification of the `netmon_dual` network monitor (src/client/netmon_dual.py).

Shallow embedding: every external command invocation (`subprocess.run` via the
`run` helper) is modelled by its observable result, an `Option RunResult` —
`none` stands for the call raising an exception (e.g. `subprocess.TimeoutExpired`),
`some p` for a completed process with exit status `p.returncode` and captured
standard output `p.stdout`.  The pure parsing/decision logic of each Python
function is translated line by line.

Python floats are modelled as `Rat`.  The diagnostic values parsed here come
from decimal text printed by `ping`/`curl`, so exact rational arithmetic is
used; the non-finite literals accepted by CPython's `float` ("inf"/"nan") are
not representable in this model and are treated as unparsed, and formatting
with `f"{x:.2f}"` is modelled as exact decimal round-half-even.  No verified
property depends on a parsed numeric value, only on presence/absence.
-/

/-- Strip leading and trailing whitespace from a character list. -/
def trimChars (cs : List Char) : List Char :=
  ((cs.dropWhile Char.isWhitespace).reverse.dropWhile Char.isWhitespace).reverse

/-- Python `str.strip()` (whitespace; the few exotic Unicode space
characters Python also strips never occur in the diagnostic outputs). -/
def pyStrip (s : String) : String := String.mk (trimChars s.data)

/-- Worker for whitespace splitting: `acc` holds the current token,
reversed. -/
def wsplitAux : List Char → List Char → List String
  | [], [] => []
  | [], acc => [String.mk acc.reverse]
  | c :: cs, acc =>
      if c.isWhitespace then
        match acc with
        | [] => wsplitAux cs []
        | _ => String.mk acc.reverse :: wsplitAux cs []
      else wsplitAux cs (c :: acc)

/-- Python `str.split()` with no argument: split on runs of whitespace,
discarding empty pieces. -/
def pysplit (s : String) : List String :=
  wsplitAux s.data []

/-- Whether `pat` occurs as a contiguous sublist of `s` (Python `pat in s`;
an empty `pat` is contained everywhere). -/
def listContains : List Char → List Char → Bool
  | [], pat => pat.isEmpty
  | s@(_ :: t), pat => pat.isPrefixOf s || listContains t pat

/-- Python `pat in s`. -/
def strContains (s pat : String) : Bool := listContains s.data pat.data

/-- Characters before the first occurrence of `pat` (all of `s` when `pat`
does not occur). -/
def takeUntilPat : List Char → List Char → List Char
  | [], _ => []
  | s@(c :: t), pat => if pat.isPrefixOf s then [] else c :: takeUntilPat t pat

/-- Characters after the first occurrence of `pat` (empty when `pat` does
not occur). -/
def dropAfterPat : List Char → List Char → List Char
  | [], _ => []
  | s@(_ :: t), pat => if pat.isPrefixOf s then s.drop pat.length else dropAfterPat t pat

/-- Fuelled splitter on a nonempty pattern; `s.length + 1` fuel always
suffices since each split consumes at least the pattern. -/
def splitOnPatFuel : Nat → List Char → List Char → List (List Char)
  | _, s, [] => [s]
  | 0, s, _ => [s]
  | n + 1, s, pat =>
      if listContains s pat then
        takeUntilPat s pat :: splitOnPatFuel n (dropAfterPat s pat) pat
      else [s]

/-- Python `s.split(pat)` for a nonempty separator `pat`. -/
def pySplitOn (s pat : String) : List String :=
  (splitOnPatFuel (s.data.length + 1) s.data pat.data).map String.mk

/-- Python `str.startswith(pat)`. -/
def pyStartsWith (s pat : String) : Bool := pat.data.isPrefixOf s.data

/-- Python `str.splitlines()` restricted to `\n` boundaries (the outputs of
`ip`/`ping` use only `\n`): like splitting on `"\n"` but without a trailing
empty line for a trailing newline. -/
def pySplitlines (s : String) : List String :=
  match (pySplitOn s "\n").reverse with
  | "" :: rest => rest.reverse
  | l => l.reverse

/-- Digit run with CPython underscore grouping (an `_` must stand between two
digits): accumulates the value, the number of digits consumed, and returns the
unconsumed rest.  `none` when an `_` is not followed by a digit. -/
def goDigits : List Char → Nat → Nat → Option (Nat × Nat × List Char)
  | [], acc, cnt => some (acc, cnt, [])
  | '_' :: c :: cs, acc, cnt =>
      if c.isDigit then goDigits cs (acc * 10 + (c.toNat - 48)) (cnt + 1) else none
  | ['_'], _, _ => none
  | c :: cs, acc, cnt =>
      if c.isDigit then goDigits cs (acc * 10 + (c.toNat - 48)) (cnt + 1)
      else some (acc, cnt, c :: cs)

/-- A digit run that must start with a digit. -/
def parseUDigits : List Char → Option (Nat × Nat × List Char)
  | c :: cs => if c.isDigit then goDigits cs (c.toNat - 48) 1 else none
  | [] => none

/-- CPython `int(s)` on the stripped string: optional sign then decimal digits
(with underscore grouping); `none` when the whole string does not match. -/
def pythonInt? (s : String) : Option Int :=
  let core : List Char → Option Int := fun cs =>
    match parseUDigits cs with
    | some (v, _, []) => some (v : Int)
    | _ => none
  match (pyStrip s).data with
  | '+' :: cs => core cs
  | '-' :: cs => (core cs).map (fun n => -n)
  | cs => core cs

/-- Exponent part of a float literal: `e`/`E`, optional sign, digits. -/
def parseExponent : List Char → Option Int
  | e :: cs =>
      if e = 'e' ∨ e = 'E' then
        match cs with
        | '+' :: cs2 => match parseUDigits cs2 with
            | some (v, _, []) => some (v : Int)
            | _ => none
        | '-' :: cs2 => match parseUDigits cs2 with
            | some (v, _, []) => some (-(v : Int))
            | _ => none
        | cs2 => match parseUDigits cs2 with
            | some (v, _, []) => some (v : Int)
            | _ => none
      else none
  | [] => none

/-- Fraction-then-exponent tail of a float literal, given the integer part
already read.  Accepts `[. digits?] [exp]` where at least the leading integer
part existed. -/
def parseFracExp (ip : Nat) : List Char → Option Rat
  | [] => some (ip : Rat)
  | '.' :: cs =>
      -- fractional digits are optional after the dot ("1." is a valid float)
      (match cs with
       | c :: _ =>
         if c.isDigit then
           match parseUDigits cs with
           | some (fv, fn, rest) =>
               let base : Rat := (ip : Rat) + (fv : Rat) / ((10 : Rat) ^ fn)
               match rest with
               | [] => some base
               | _ => (parseExponent rest).map (fun e =>
                   if 0 ≤ e then base * (10 : Rat) ^ e.toNat
                   else base / (10 : Rat) ^ (-e).toNat)
           | none => none
         else
           (parseExponent cs).map (fun e =>
             if 0 ≤ e then (ip : Rat) * (10 : Rat) ^ e.toNat
             else (ip : Rat) / (10 : Rat) ^ (-e).toNat)
       | [] => some (ip : Rat))
  | cs =>
      (parseExponent cs).map (fun e =>
        if 0 ≤ e then (ip : Rat) * (10 : Rat) ^ e.toNat
        else (ip : Rat) / (10 : Rat) ^ (-e).toNat)

/-- Unsigned float literal: `digits [. digits?] [exp]` or `. digits [exp]`. -/
def parseUnsignedFloat : List Char → Option Rat
  | '.' :: cs =>
      (match parseUDigits cs with
       | some (fv, fn, rest) =>
           let base : Rat := (fv : Rat) / ((10 : Rat) ^ fn)
           match rest with
           | [] => some base
           | _ => (parseExponent rest).map (fun e =>
               if 0 ≤ e then base * (10 : Rat) ^ e.toNat
               else base / (10 : Rat) ^ (-e).toNat)
       | none => none)
  | cs =>
      match parseUDigits cs with
      | some (ip, _, rest) => parseFracExp ip rest
      | none => none

/-- CPython `float(s)` on finite decimal literals: strip, optional sign, then
digits with optional fraction and exponent (underscore grouping allowed).
The non-finite literals `inf`/`infinity`/`nan` are not representable as `Rat`
and yield `none`; no verified property depends on parsed numeric values. -/
def pythonFloat? (s : String) : Option Rat :=
  match (pyStrip s).data with
  | '+' :: cs => parseUnsignedFloat cs
  | '-' :: cs => (parseUnsignedFloat cs).map (fun q => -q)
  | cs => parseUnsignedFloat cs

/-- Round a rational to the nearest integer, ties to even (CPython's float
formatting rounding rule, applied here to the exact decimal value). -/
def roundHalfEven (x : Rat) : Int :=
  let n := x.floor
  let f := x - (n : Rat)
  if f < 1 / 2 then n else if 1 / 2 < f then n + 1
  else if n % 2 = 0 then n else n + 1

/-- Two-digit zero-padded rendering of `n < 100`. -/
def pad2 (n : Nat) : String :=
  if n < 10 then "0" ++ toString n else toString n

/-- Python `f"{x:.2f}"` on the exact rational value (decimal round-half-even;
IEEE-754 double artifacts such as `-0.00` are outside the model). -/
def formatRat2 (q : Rat) : String :=
  let r := roundHalfEven (q * 100)
  let sgn := if r < 0 then "-" else ""
  let a := r.natAbs
  sgn ++ toString (a / 100) ++ "." ++ pad2 (a % 100)

/-- Python `int(b)` on a bool. -/
def boolToInt (b : Bool) : Nat := if b then 1 else 0

/-- Observable result of a completed `subprocess.run` call: exit status and
captured standard output (`stderr` is captured by the code but never read). -/
structure RunResult where
  returncode : Int
  stdout : String
deriving DecidableEq

/-- `iface_is_up`: `False` on exception or nonzero exit, else whether the
output contains `"state UP"`. -/
def iface_is_up (r : Option RunResult) : Bool :=
  match r with
  | none => false
  | some p => if p.returncode ≠ 0 then false else strContains p.stdout "state UP"

/-- `iface_ipv4` line scan: first line whose stripped form starts with
`"inet "` yields its second whitespace token up to the first `/`. -/
def findInet : List String → String
  | [] => ""
  | line :: rest =>
      let l := pyStrip line
      if pyStartsWith l "inet " then
        String.mk (((pysplit l).getD 1 "").data.takeWhile (fun c => c ≠ '/'))
      else findInet rest

/-- `iface_ipv4`: `""` on exception or nonzero exit, else the first IPv4
address parsed from the `ip -4 addr show` output. -/
def iface_ipv4 (r : Option RunResult) : String :=
  match r with
  | none => ""
  | some p => if p.returncode ≠ 0 then "" else findInet (pySplitlines p.stdout)

/-- `gateway_for_iface` token scan: the token after the first `"via"` that has
a successor (the Python loop skips a trailing `"via"` and returns `""`). -/
def findVia : List String → String
  | [] => ""
  | tok :: rest =>
      if tok = "via" then
        match rest with
        | x :: _ => x
        | [] => ""
      else findVia rest

/-- `gateway_for_iface`: `""` on exception or nonzero exit, else the token
following `"via"` in the stripped, whitespace-split route output. -/
def gateway_for_iface (r : Option RunResult) : String :=
  match r with
  | none => ""
  | some p => if p.returncode ≠ 0 then "" else findVia (pysplit (pyStrip p.stdout))

/-- `ping_via_iface` rtt scan: the first line containing `"time="`; from it,
the first whitespace token after the first `"time="` parsed as a float — parse
failure leaves the rtt absent (the inner `except: pass` then `break`). -/
def findRtt : List String → Option Rat
  | [] => none
  | line :: rest =>
      if strContains line "time=" then
        match (pysplit ((pySplitOn line "time=").getD 1 "")).head? with
        | some tok => pythonFloat? tok
        | none => none
      else findRtt rest

/-- `ping_via_iface`: `(False, none)` on exception or nonzero exit; otherwise
ok with the optional rtt parsed from the output. -/
def ping_via_iface (r : Option RunResult) : Bool × Option Rat :=
  match r with
  | none => (false, none)
  | some p =>
      if p.returncode ≠ 0 then (false, none)
      else (true, findRtt (pySplitlines p.stdout))

/-- `curl_head_via_iface`: on zero exit the output must strip/split into
exactly two fields, `int` status then `float` total seconds (a parse failure
is the caught exception path); `ok` iff the status lies in `[200, 600)`; the
latency is the total time converted to milliseconds. -/
def curl_head_via_iface (r : Option RunResult) : Bool × Option Rat × Option Int :=
  match r with
  | none => (false, none, none)
  | some p =>
      if p.returncode ≠ 0 then (false, none, none)
      else
        match pysplit (pyStrip p.stdout) with
        | [a, b] =>
            match pythonInt? a, pythonFloat? b with
            | some code, some t =>
                let ms := t * 1000
                let ok := decide (200 ≤ code ∧ code < 600)
                (ok, some ms, some code)
            | _, _ => (false, none, none)
        | _ => (false, none, none)

/-- `curl_get_via_iface`: `""` on exception or nonzero exit, else the stripped
response body. -/
def curl_get_via_iface (r : Option RunResult) : String :=
  match r with
  | none => ""
  | some p => if p.returncode ≠ 0 then "" else pyStrip p.stdout

/-- A value stored in the per-interface result dict: Python `int` or `str`. -/
inductive PyVal
  | int (n : Int)
  | str (s : String)
deriving DecidableEq

/-- Observable results of the six external commands one `check_iface` call can
issue, in source order: `ip link show`, `ip -4 addr show`, `ip route show
default`, `ping`, the curl HEAD probe, and the curl GET for the public IP. -/
structure IfaceEnv where
  linkShow : Option RunResult
  addrShow : Option RunResult
  routeShow : Option RunResult
  pingRun : Option RunResult
  curlHeadRun : Option RunResult
  curlGetRun : Option RunResult
deriving DecidableEq

/-- `check_iface` line `up = iface_is_up(iface)`. -/
def stage_up (env : IfaceEnv) : Bool := iface_is_up env.linkShow

/-- `check_iface` line `ip4 = iface_ipv4(iface) if up else ""`. -/
def stage_ip4 (env : IfaceEnv) : String :=
  if stage_up env then iface_ipv4 env.addrShow else ""

/-- `check_iface` line `gw = gateway_for_iface(iface) if ip4 else ""`. -/
def stage_gw (env : IfaceEnv) : String :=
  if stage_ip4 env ≠ "" then gateway_for_iface env.routeShow else ""

/-- `check_iface` ping stage: `(local_ok, gw_rtt)`, run only when `gw` is
nonempty, else the initial `(False, None)`. -/
def stage_ping (env : IfaceEnv) : Bool × Option Rat :=
  if stage_gw env ≠ "" then ping_via_iface env.pingRun else (false, none)

/-- `check_iface` HEAD-probe stage: `(nos_ok, nos_ms, nos_code)`, run only
when `local_ok`, else the initial `(False, None, None)`. -/
def stage_head (env : IfaceEnv) : Bool × Option Rat × Option Int :=
  if (stage_ping env).1 then curl_head_via_iface env.curlHeadRun
  else (false, none, none)

/-- `check_iface` public-IP stage: run only when `local_ok` and then
`nos_ok`, else the initial `""`. -/
def stage_public (env : IfaceEnv) : String :=
  if (stage_ping env).1 then
    (if (stage_head env).1 then curl_get_via_iface env.curlGetRun else "")
  else ""

/-- `check_iface` line `iface_ok = bool(local_ok and nos_ok)`. -/
def iface_ok_flag (env : IfaceEnv) : Bool :=
  (stage_ping env).1 && (stage_head env).1

/-- `check_iface`: the returned dict, as an insertion-ordered association
list mirroring the Python dict literal. -/
def check_iface (env : IfaceEnv) : List (String × PyVal) :=
  [("iface_up", .int (boolToInt (stage_up env))),
   ("iface_ipv4", .str (stage_ip4 env)),
   ("gateway", .str (stage_gw env)),
   ("local_ok", .int (boolToInt (stage_ping env).1)),
   ("gateway_rtt_ms", .str (match (stage_ping env).2 with
      | some r => formatRat2 r
      | none => "")),
   ("nos_ok", .int (boolToInt (stage_head env).1)),
   ("nos_status", (match (stage_head env).2.2 with
      | some c => .int c
      | none => .str "")),
   ("nos_response_ms", .str (match (stage_head env).2.1 with
      | some m => formatRat2 m
      | none => "")),
   ("public_ip", .str (stage_public env)),
   ("iface_ok", .int (boolToInt (iface_ok_flag env)))]

/-- The configured interface list (`IFACES = ["eth0", "wlan0"]`). -/
def IFACES : List String := ["eth0", "wlan0"]

/-- `results = {iface: check_iface(iface) for iface in IFACES}`, with the
per-interface command results supplied by `envOf`. -/
def mkResults (envOf : String → IfaceEnv) : List (String × List (String × PyVal)) :=
  IFACES.map (fun i => (i, check_iface (envOf i)))

/-- `overall_ok = any(results[i]["iface_ok"] == 1 for i in IFACES)`; the dict
lookups are modelled by association-list lookup (every `i ∈ IFACES` is a key
of `results` by construction). -/
def overall_ok (results : List (String × List (String × PyVal))) : Bool :=
  IFACES.any (fun i =>
    decide (((results.lookup i).getD []).lookup "iface_ok" = some (PyVal.int 1)))

/-- `preferred = "eth0" if results.get("eth0", {}).get("iface_ok") == 1 else
("wlan0" if results.get("wlan0", {}).get("iface_ok") == 1 else "")`. -/
def preferred (results : List (String × List (String × PyVal))) : String :=
  if ((results.lookup "eth0").getD []).lookup "iface_ok" = some (PyVal.int 1) then "eth0"
  else if ((results.lookup "wlan0").getD []).lookup "iface_ok" = some (PyVal.int 1) then "wlan0"
  else ""

/-- The flattened CSV row built in `main`: `timestamp`, `overall_ok` as
`int(bool)`, `preferred_iface`, then each interface's fields prefixed with
`"<iface>_"`, in `IFACES` order. -/
def flattenRow (ts : String) (overall : Bool) (pref : String)
    (results : List (String × List (String × PyVal))) : List (String × PyVal) :=
  [("timestamp", .str ts),
   ("overall_ok", .int (boolToInt overall)),
   ("preferred_iface", .str pref)]
  ++ IFACES.flatMap (fun iface =>
      ((results.lookup iface).getD []).map (fun kv => (iface ++ "_" ++ kv.1, kv.2)))

/-- Python `str(b)` on a bool. -/
def pyBoolStr (b : Bool) : String := if b then "True" else "False"

/-- The line written to `netmon_upload.log`:
`f"{ts} | {csv_path.name} | overall_ok={overall_ok} | preferred={preferred} | {ok} | {msg}\n"`.
`overall_ok` and `ok` are Python bools here, so they render as
`True`/`False` (the CSV row, by contrast, stores `int(overall_ok)`). -/
def auditLine (ts fname : String) (overall : Bool) (pref : String)
    (ok : Bool) (msg : String) : String :=
  ts ++ " | " ++ fname ++ " | overall_ok=" ++ pyBoolStr overall
     ++ " | preferred=" ++ pref ++ " | " ++ pyBoolStr ok ++ " | " ++ msg ++ "\n"

/-- Environment-variable view seen by `azure_upload` (`os.getenv` with `""`
defaults for the first two). -/
structure UploadEnv where
  azure_container : String
  conn_str : String
  sas : String
deriving DecidableEq

/-- `azure_upload`, embedded with its exception behaviour made explicit as
`Except`: the message of a raised exception on the left, the returned
`(ok, message)` pair on the right.

When the container name is nonempty, the call unconditionally raises
`NameError`: line 186 evaluates the default argument
`os.getenv("AZURE_STORAGE_ACCOUNT", AZURE_ACCOUNT_DEFAULT)` and the global
`AZURE_ACCOUNT_DEFAULT` is defined nowhere in the module; Python evaluates
the default expression before the call, whether or not the variable is set.
The evaluation sits before the `try:` block, so nothing catches it, and the
credential-selection and upload code below it is unreachable. -/
def azure_upload (env : UploadEnv) : Except String (Bool × String) :=
  let container := pyStrip env.azure_container
  if container = "" then Except.ok (false, "AZURE_CONTAINER not set")
  else Except.error "NameError: name AZURE_ACCOUNT_DEFAULT is not defined"

/-- A row of the daily CSV file: the header row (field names) or a data row
(the flattened record). -/
inductive CsvRow
  | header (fields : List String)
  | data (vals : List (String × PyVal))
deriving DecidableEq

/-- `append_row`: the daily log file as `none` (file absent) or `some rows`.
A fresh `csv.DictWriter` is built per call with `fieldnames=list(row.keys())`;
the header is written only when the file did not exist, then the one data
row is appended.  Prior contents are never touched (`open(..., "a")`). -/
def append_row (file : Option (List CsvRow)) (row : List (String × PyVal)) :
    Option (List CsvRow) :=
  match file with
  | none => some [CsvRow.header (row.map Prod.fst), CsvRow.data row]
  | some rows => some (rows ++ [CsvRow.data row])

/-- Iterated `append_row` over a day's records, starting from the given file
state. -/
def appendAll (file : Option (List CsvRow)) (rows : List (List (String × PyVal))) :
    Option (List CsvRow) :=
  rows.foldl append_row file

/-- Observable effects of one tick of `main`'s loop, in program order. -/
inductive Effect
  | appendLog (row : List (String × PyVal))
  | invokeUpload (file : String)
  | auditWrite (line : String)
deriving DecidableEq

/-- One iteration of `main`'s `while True` body, as the ordered trace of its
observable effects.  `uploadOutcome` is the behaviour of `azure_upload` at
this tick (`Except.error` = the call raised; the audit write then never
happens because the exception propagates).  An audit write that the file
system rejects is swallowed by the inner `try/except`, which does not change
the trace of attempted effects. -/
def tickTrace (ts fname : String) (envOf : String → IfaceEnv)
    (uploadOutcome : Except String (Bool × String)) : List Effect :=
  let results := mkResults envOf
  let overall := overall_ok results
  let pref := preferred results
  let row := flattenRow ts overall pref results
  Effect.appendLog row ::
    (if overall then
      Effect.invokeUpload fname ::
        (match uploadOutcome with
         | Except.ok r => [Effect.auditWrite (auditLine ts fname overall pref r.1 r.2)]
         | Except.error _ => [])
     else [])

/-- Formalisation of the SPEC's wording for the HEAD probe's success (claim
C3): the transport layer succeeded — zero exit status and well-formed
two-field output — and the parsed status code lies in `[200, 600)`. -/
def headOkSpec (r : Option RunResult) : Bool :=
  match r with
  | none => false
  | some p =>
      decide (p.returncode = 0) &&
      (match pysplit (pyStrip p.stdout) with
       | [a, b] =>
           (match pythonInt? a, pythonFloat? b with
            | some code, some _ => decide (200 ≤ code ∧ code < 600)
            | _, _ => false)
       | _ => false)

/-- Formalisation of the SPEC's wording for the HEAD probe's failure side
(claim C3): transport failure (exception or nonzero exit) or malformed
timing output (not exactly two fields, or an unparsable field). -/
def headFailSpec (r : Option RunResult) : Bool :=
  match r with
  | none => true
  | some p =>
      decide (p.returncode ≠ 0) ||
      (match pysplit (pyStrip p.stdout) with
       | [a, b] => (pythonInt? a).isNone || (pythonFloat? b).isNone
       | _ => true)

/-- Formalisation of the SPEC's claimed audit-line shape (claim C7): the
third ` | `-separated field reads `overall_ok=0` or `overall_ok=1`. -/
def auditFieldIs01 (line : String) : Bool :=
  match pySplitOn line " | " with
  | _ :: _ :: f :: _ => decide (f = "overall_ok=0") || decide (f = "overall_ok=1")
  | _ => false

/-- A command environment in which every external call raises (e.g. times
out): every stage degrades to its false/empty value. -/
def envNone : IfaceEnv := ⟨none, none, none, none, none, none⟩

/-- A command environment for a fully healthy interface: link up, an IPv4
address, a default gateway, a successful ping (whose output happens to carry
no `time=` marker, a non-fatal parse miss), and an HTTP 204 in one second. -/
def envHealthy : IfaceEnv :=
  { linkShow := some ⟨0, "2: eth0: <BROADCAST> state UP mode DEFAULT"⟩
    addrShow := some ⟨0, "    inet 192.168.1.23/24 brd 192.168.1.255"⟩
    routeShow := some ⟨0, "default via 192.168.1.1 dev eth0"⟩
    pingRun := some ⟨0, "1 packets transmitted, 1 received"⟩
    curlHeadRun := some ⟨0, "204 1"⟩
    curlGetRun := some ⟨0, "203.0.113.7"⟩ }

/-! ## Helper lemmas -/

theorem boolToInt_eq_zero (b : Bool) : boolToInt b = 0 ↔ b = false := by
  cases b <;> simp [boolToInt]

theorem boolToInt_eq_one (b : Bool) : boolToInt b = 1 ↔ b = true := by
  cases b <;> simp [boolToInt]

theorem lookup_iface_up (env : IfaceEnv) :
    (check_iface env).lookup "iface_up" = some (PyVal.int (boolToInt (stage_up env))) := rfl

theorem lookup_iface_ipv4 (env : IfaceEnv) :
    (check_iface env).lookup "iface_ipv4" = some (PyVal.str (stage_ip4 env)) := rfl

theorem lookup_gateway (env : IfaceEnv) :
    (check_iface env).lookup "gateway" = some (PyVal.str (stage_gw env)) := rfl

theorem lookup_local_ok (env : IfaceEnv) :
    (check_iface env).lookup "local_ok" = some (PyVal.int (boolToInt (stage_ping env).1)) := rfl

theorem lookup_gateway_rtt (env : IfaceEnv) :
    (check_iface env).lookup "gateway_rtt_ms" = some (PyVal.str (match (stage_ping env).2 with
      | some r => formatRat2 r
      | none => "")) := rfl

theorem lookup_nos_ok (env : IfaceEnv) :
    (check_iface env).lookup "nos_ok" = some (PyVal.int (boolToInt (stage_head env).1)) := rfl

theorem lookup_nos_status (env : IfaceEnv) :
    (check_iface env).lookup "nos_status" = some (match (stage_head env).2.2 with
      | some c => PyVal.int c
      | none => PyVal.str "") := rfl

theorem lookup_nos_response (env : IfaceEnv) :
    (check_iface env).lookup "nos_response_ms" = some (PyVal.str (match (stage_head env).2.1 with
      | some m => formatRat2 m
      | none => "")) := rfl

theorem lookup_public_ip (env : IfaceEnv) :
    (check_iface env).lookup "public_ip" = some (PyVal.str (stage_public env)) := rfl

theorem lookup_iface_ok (env : IfaceEnv) :
    (check_iface env).lookup "iface_ok" = some (PyVal.int (boolToInt (iface_ok_flag env))) := rfl

theorem stage_ip4_of_down (env : IfaceEnv) (h : stage_up env = false) :
    stage_ip4 env = "" := by simp [stage_ip4, h]

theorem stage_gw_of_noip (env : IfaceEnv) (h : stage_ip4 env = "") :
    stage_gw env = "" := by simp [stage_gw, h]

theorem stage_ping_of_nogw (env : IfaceEnv) (h : stage_gw env = "") :
    stage_ping env = (false, none) := by simp [stage_ping, h]

theorem stage_head_of_nolocal (env : IfaceEnv) (h : (stage_ping env).1 = false) :
    stage_head env = (false, none, none) := by simp [stage_head, h]

theorem stage_public_of_nonos (env : IfaceEnv) (h : (stage_head env).1 = false) :
    stage_public env = "" := by
  unfold stage_public
  cases hp : (stage_ping env).1 <;> simp [h, hp]

/-! ## Claim theorems -/

/-- C1: staged-dependency invariant of `check_iface` — every downstream field
is empty/false/absent when its prerequisite stage did not run or failed: if
`iface_up` is 0 then `iface_ipv4`, `gateway`, `local_ok`, `nos_ok` and
`public_ip` are all empty/0; an empty `iface_ipv4` forces an empty `gateway`;
an empty `gateway` forces `local_ok=0` with absent rtt; `local_ok=0` forces
`nos_ok=0` with absent status and latency; `nos_ok=0` forces an empty
`public_ip`. -/
theorem C1_staged_dependency (env : IfaceEnv) :
    ((check_iface env).lookup "iface_up" = some (PyVal.int 0) →
      (check_iface env).lookup "iface_ipv4" = some (PyVal.str "") ∧
      (check_iface env).lookup "gateway" = some (PyVal.str "") ∧
      (check_iface env).lookup "local_ok" = some (PyVal.int 0) ∧
      (check_iface env).lookup "nos_ok" = some (PyVal.int 0) ∧
      (check_iface env).lookup "public_ip" = some (PyVal.str "")) ∧
    ((check_iface env).lookup "iface_ipv4" = some (PyVal.str "") →
      (check_iface env).lookup "gateway" = some (PyVal.str "")) ∧
    ((check_iface env).lookup "gateway" = some (PyVal.str "") →
      (check_iface env).lookup "local_ok" = some (PyVal.int 0) ∧
      (check_iface env).lookup "gateway_rtt_ms" = some (PyVal.str "")) ∧
    ((check_iface env).lookup "local_ok" = some (PyVal.int 0) →
      (check_iface env).lookup "nos_ok" = some (PyVal.int 0) ∧
      (check_iface env).lookup "nos_status" = some (PyVal.str "") ∧
      (check_iface env).lookup "nos_response_ms" = some (PyVal.str "")) ∧
    ((check_iface env).lookup "nos_ok" = some (PyVal.int 0) →
      (check_iface env).lookup "public_ip" = some (PyVal.str "")) := by
  refine ⟨?_, ?_, ?_, ?_, ?_⟩
  · intro h
    rw [lookup_iface_up] at h
    have hb : stage_up env = false := by
      cases hu : stage_up env
      · rfl
      · rw [hu] at h; simp [boolToInt] at h
    have hip : stage_ip4 env = "" := stage_ip4_of_down env hb
    have hgw : stage_gw env = "" := stage_gw_of_noip env hip
    have hping := stage_ping_of_nogw env hgw
    have hhead := stage_head_of_nolocal env (by rw [hping])
    have hpub := stage_public_of_nonos env (by rw [hhead])
    refine ⟨?_, ?_, ?_, ?_, ?_⟩
    · rw [lookup_iface_ipv4, hip]
    · rw [lookup_gateway, hgw]
    · rw [lookup_local_ok, hping]; rfl
    · rw [lookup_nos_ok, hhead]; rfl
    · rw [lookup_public_ip, hpub]
  · intro h
    rw [lookup_iface_ipv4] at h
    have hip : stage_ip4 env = "" := by simpa using h
    rw [lookup_gateway, stage_gw_of_noip env hip]
  · intro h
    rw [lookup_gateway] at h
    have hgw : stage_gw env = "" := by simpa using h
    have hping := stage_ping_of_nogw env hgw
    constructor
    · rw [lookup_local_ok, hping]; rfl
    · rw [lookup_gateway_rtt, hping]
  · intro h
    rw [lookup_local_ok] at h
    have hl : (stage_ping env).1 = false := by
      cases hu : (stage_ping env).1
      · rfl
      · rw [hu] at h; simp [boolToInt] at h
    have hhead := stage_head_of_nolocal env hl
    refine ⟨?_, ?_, ?_⟩
    · rw [lookup_nos_ok, hhead]; rfl
    · rw [lookup_nos_status, hhead]
    · rw [lookup_nos_response, hhead]
  · intro h
    rw [lookup_nos_ok] at h
    have hn : (stage_head env).1 = false := by
      cases hu : (stage_head env).1
      · rfl
      · rw [hu] at h; simp [boolToInt] at h
    rw [lookup_public_ip, stage_public_of_nonos env hn]

/-- C1 witness: with every command raising, the interface is down and all
downstream fields are empty. -/
theorem C1_staged_dependency_witness :
    (check_iface envNone).lookup "iface_up" = some (PyVal.int 0) ∧
    ((check_iface envNone).lookup "iface_ipv4" = some (PyVal.str "") ∧
     (check_iface envNone).lookup "gateway" = some (PyVal.str "") ∧
     (check_iface envNone).lookup "local_ok" = some (PyVal.int 0) ∧
     (check_iface envNone).lookup "nos_ok" = some (PyVal.int 0) ∧
     (check_iface envNone).lookup "public_ip" = some (PyVal.str "")) :=
  ⟨by decide, (C1_staged_dependency envNone).1 (by decide)⟩

/-- C9: the derived health flag is the conjunction of local and remote
success — `iface_ok` is 1 exactly when `local_ok` and `nos_ok` are both 1. -/
theorem C9_healthy_conjunction (env : IfaceEnv) :
    (check_iface env).lookup "iface_ok" = some (PyVal.int 1) ↔
      ((check_iface env).lookup "local_ok" = some (PyVal.int 1) ∧
       (check_iface env).lookup "nos_ok" = some (PyVal.int 1)) := by
  rw [lookup_iface_ok, lookup_local_ok, lookup_nos_ok]
  cases h1 : (stage_ping env).1 <;> cases h2 : (stage_head env).1 <;>
    simp [iface_ok_flag, h1, h2, boolToInt]

/-- C9 witness: a fully healthy interface has `local_ok=1`, `nos_ok=1` and
hence `iface_ok=1`. -/
theorem C9_healthy_conjunction_witness :
    ((check_iface envHealthy).lookup "local_ok" = some (PyVal.int 1) ∧
     (check_iface envHealthy).lookup "nos_ok" = some (PyVal.int 1)) ∧
    (check_iface envHealthy).lookup "iface_ok" = some (PyVal.int 1) :=
  ⟨by decide, (C9_healthy_conjunction envHealthy).mpr (by decide)⟩

theorem mkResults_eth0 (envOf : String → IfaceEnv) :
    (mkResults envOf).lookup "eth0" = some (check_iface (envOf "eth0")) := rfl

theorem mkResults_wlan0 (envOf : String → IfaceEnv) :
    (mkResults envOf).lookup "wlan0" = some (check_iface (envOf "wlan0")) := rfl

/-- C4: `preferred` equals the first interface in configured `IFACES` order
whose health flag is set, and is empty when none is healthy — a deterministic
function of the per-interface results. -/
theorem C4_preferred_first_healthy (envOf : String → IfaceEnv) :
    preferred (mkResults envOf) =
      (IFACES.find? (fun i => iface_ok_flag (envOf i))).getD "" := by
  cases he : iface_ok_flag (envOf "eth0") <;> cases hw : iface_ok_flag (envOf "wlan0") <;>
    simp [preferred, IFACES, mkResults_eth0, mkResults_wlan0, lookup_iface_ok,
      he, hw, boolToInt, List.find?]

/-- C8: `overall_ok` is the disjunction, over the configured interfaces, of
the per-interface health flags. -/
theorem C8_overall_or (envOf : String → IfaceEnv) :
    overall_ok (mkResults envOf) = IFACES.any (fun i => iface_ok_flag (envOf i)) := by
  cases he : iface_ok_flag (envOf "eth0") <;> cases hw : iface_ok_flag (envOf "wlan0") <;>
    simp [overall_ok, IFACES, mkResults_eth0, mkResults_wlan0, lookup_iface_ok,
      he, hw, boolToInt]

/-- C10: fixed flattened schema — `check_iface` always returns exactly the
ten fields in the same order, and the flattened per-tick row therefore has
the same 23 columns in the same order on every tick. -/
theorem C10_fixed_schema (env : IfaceEnv) (ts : String) (envOf : String → IfaceEnv) :
    (check_iface env).map Prod.fst =
      ["iface_up", "iface_ipv4", "gateway", "local_ok", "gateway_rtt_ms",
       "nos_ok", "nos_status", "nos_response_ms", "public_ip", "iface_ok"] ∧
    (flattenRow ts (overall_ok (mkResults envOf)) (preferred (mkResults envOf))
        (mkResults envOf)).map Prod.fst =
      ["timestamp", "overall_ok", "preferred_iface",
       "eth0_iface_up", "eth0_iface_ipv4", "eth0_gateway", "eth0_local_ok",
       "eth0_gateway_rtt_ms", "eth0_nos_ok", "eth0_nos_status",
       "eth0_nos_response_ms", "eth0_public_ip", "eth0_iface_ok",
       "wlan0_iface_up", "wlan0_iface_ipv4", "wlan0_gateway", "wlan0_local_ok",
       "wlan0_gateway_rtt_ms", "wlan0_nos_ok", "wlan0_nos_status",
       "wlan0_nos_response_ms", "wlan0_public_ip", "wlan0_iface_ok"] :=
  ⟨rfl, rfl⟩

/-- C3: the HEAD probe reports ok exactly when the transport layer succeeded
(zero exit status, well-formed two-field output) and the parsed status code
lies in `[200, 600)`; transport failure or malformed timing output yields
`ok=false` with absent latency and status. -/
theorem C3_head_probe (r : Option RunResult) :
    ((curl_head_via_iface r).1 = true ↔ headOkSpec r = true) ∧
    (headFailSpec r = true → curl_head_via_iface r = (false, none, none)) := by
  cases r with
  | none => simp [curl_head_via_iface, headOkSpec, headFailSpec]
  | some p =>
    by_cases hrc : p.returncode = 0
    · rcases hL : pysplit (pyStrip p.stdout) with _ | ⟨a, bs⟩
      · simp [curl_head_via_iface, headOkSpec, headFailSpec, hrc, hL]
      · rcases bs with _ | ⟨b, cs⟩
        · simp [curl_head_via_iface, headOkSpec, headFailSpec, hrc, hL]
        · rcases cs with _ | ⟨c, rest⟩
          · cases hi : pythonInt? a <;> cases hf : pythonFloat? b <;>
              simp [curl_head_via_iface, headOkSpec, headFailSpec, hrc, hL, hi, hf]
          · simp [curl_head_via_iface, headOkSpec, headFailSpec, hrc, hL]
    · simp [curl_head_via_iface, headOkSpec, headFailSpec, hrc]

/-- C3 witness: a zero-exit run whose output is not two well-formed fields
is malformed, and the probe reports `(false, none, none)`. -/
theorem C3_head_probe_witness :
    headFailSpec (some ⟨0, "bogus"⟩) = true ∧
    curl_head_via_iface (some ⟨0, "bogus"⟩) = (false, none, none) :=
  ⟨by decide, (C3_head_probe (some ⟨0, "bogus"⟩)).2 (by decide)⟩

theorem appendAll_some (l : List CsvRow) (rows : List (List (String × PyVal))) :
    appendAll (some l) rows = some (l ++ rows.map CsvRow.data) := by
  induction rows generalizing l with
  | nil => simp [appendAll]
  | cons r rest ih =>
      show appendAll (append_row (some l) r) rest = _
      rw [show append_row (some l) r = some (l ++ [CsvRow.data r]) from rfl, ih]
      simp

/-- C5: daily-log header idempotence — starting from an absent file, `N ≥ 1`
appends on the same date produce exactly one header row (derived from the
first record's field names), written before the first data row, followed by
the `N` data rows in order; and an append to an existing file only extends
it, never rewriting a prior row. -/
theorem C5_header_idempotence (r : List (String × PyVal))
    (rest : List (List (String × PyVal))) :
    appendAll none (r :: rest) =
      some (CsvRow.header (r.map Prod.fst) :: (r :: rest).map CsvRow.data) ∧
    (∀ (rows : List CsvRow) (row : List (String × PyVal)),
      append_row (some rows) row = some (rows ++ [CsvRow.data row])) := by
  constructor
  · show appendAll (append_row none r) rest = _
    rw [show append_row none r =
          some [CsvRow.header (r.map Prod.fst), CsvRow.data r] from rfl,
        appendAll_some]
    simp
  · intro rows row; rfl

/-- C6: upload gating — in every tick the log-row append is the first effect
and happens unconditionally, the Upload Notifier is invoked iff
`overall_ok` is true for that tick, and an unhealthy tick produces the
append alone (no upload invocation, no outcome). -/
theorem C6_upload_gating (ts fname : String) (envOf : String → IfaceEnv)
    (outcome : Except String (Bool × String)) :
    ((tickTrace ts fname envOf outcome).head? =
      some (Effect.appendLog (flattenRow ts (overall_ok (mkResults envOf))
        (preferred (mkResults envOf)) (mkResults envOf)))) ∧
    ((Effect.invokeUpload fname ∈ tickTrace ts fname envOf outcome) ↔
      overall_ok (mkResults envOf) = true) ∧
    (overall_ok (mkResults envOf) = false →
      tickTrace ts fname envOf outcome =
        [Effect.appendLog (flattenRow ts (overall_ok (mkResults envOf))
          (preferred (mkResults envOf)) (mkResults envOf))]) := by
  cases ho : overall_ok (mkResults envOf) <;> cases outcome <;>
    simp [tickTrace, ho]

/-- C6 witness: with every command failing, the tick is unhealthy and its
trace is the log append alone. -/
theorem C6_upload_gating_witness :
    overall_ok (mkResults (fun _ => envNone)) = false ∧
    tickTrace "t" "f.csv" (fun _ => envNone) (Except.ok (true, "m")) =
      [Effect.appendLog (flattenRow "t" (overall_ok (mkResults (fun _ => envNone)))
        (preferred (mkResults (fun _ => envNone))) (mkResults (fun _ => envNone)))] :=
  ⟨by decide,
   (C6_upload_gating "t" "f.csv" (fun _ => envNone) (Except.ok (true, "m"))).2.2 (by decide)⟩

/-- C7 counterexample: a healthy tick writes an audit line whose
overall-health field reads `overall_ok=True` — the Python f-string
interpolates the raw bool `overall_ok`, not `int(overall_ok)` — so the
claimed `overall_ok=<0|1>` rendering fails. -/
theorem C7_counterexample :
    Effect.auditWrite
        ("2026-10-12T09:00:00 | netmon_2026-10-12.csv | overall_ok=True | preferred=eth0 | False | AZURE_CONTAINER not set\n") ∈
      tickTrace "2026-10-12T09:00:00" "netmon_2026-10-12.csv" (fun _ => envHealthy)
        (Except.ok (false, "AZURE_CONTAINER not set")) ∧
    auditFieldIs01
        ("2026-10-12T09:00:00 | netmon_2026-10-12.csv | overall_ok=True | preferred=eth0 | False | AZURE_CONTAINER not set\n") = false := by
  constructor <;> decide

/-- C7 amended: every line written to the upload-audit log has the format
`timestamp | filename | overall_ok=True | preferred=<iface|empty> |
<True|False> | <message>` — the overall-health field and the upload flag are
rendered as Python bools (`True`/`False`), not `0`/`1`; and since the line is
only written on a healthy tick, the overall field always reads
`overall_ok=True`. -/
theorem C7_amended_bool_rendering (ts fname : String) (envOf : String → IfaceEnv)
    (outcome : Except String (Bool × String)) (line : String)
    (h : Effect.auditWrite line ∈ tickTrace ts fname envOf outcome) :
    ∃ ok msg, line = ts ++ " | " ++ fname ++ " | overall_ok=" ++ "True"
      ++ " | preferred=" ++ preferred (mkResults envOf) ++ " | " ++ pyBoolStr ok
      ++ " | " ++ msg ++ "\n" := by
  cases ho : overall_ok (mkResults envOf) with
  | false => simp [tickTrace, ho] at h
  | true =>
    cases outcome with
    | error e => simp [tickTrace, ho] at h
    | ok res =>
      simp [tickTrace, ho, auditLine, pyBoolStr] at h
      exact ⟨res.1, res.2, by rw [h]; simp [pyBoolStr]⟩

/-- C7 amended witness: the healthy tick's audit line has the bool-rendered
format. -/
theorem C7_amended_bool_rendering_witness :
    ∃ ok msg,
      ("2026-10-12T09:00:00 | netmon_2026-10-12.csv | overall_ok=True | preferred=eth0 | False | AZURE_CONTAINER not set\n" : String) =
        "2026-10-12T09:00:00" ++ " | " ++ "netmon_2026-10-12.csv" ++ " | overall_ok=" ++ "True"
          ++ " | preferred=" ++ preferred (mkResults (fun _ => envHealthy)) ++ " | "
          ++ pyBoolStr ok ++ " | " ++ msg ++ "\n" :=
  C7_amended_bool_rendering "2026-10-12T09:00:00" "netmon_2026-10-12.csv"
    (fun _ => envHealthy) (Except.ok (false, "AZURE_CONTAINER not set"))
    ("2026-10-12T09:00:00 | netmon_2026-10-12.csv | overall_ok=True | preferred=eth0 | False | AZURE_CONTAINER not set\n")
    (by decide)

/-- C2 (code bug): `azure_upload` with an empty container name does return
the documented non-fatal `(False, message)` pair, but with any nonempty
container name it raises `NameError` before the `try:` block — line 186
evaluates the undefined module global `AZURE_ACCOUNT_DEFAULT` as the
`os.getenv` default argument — so the configuration-error and
transport-error reporting paths below it are unreachable and the exception
propagates out of the tick. -/
theorem C2_upload_namerror :
    azure_upload ⟨"netmon", "", ""⟩ =
      Except.error "NameError: name AZURE_ACCOUNT_DEFAULT is not defined" ∧
    azure_upload ⟨"", "", ""⟩ = Except.ok (false, "AZURE_CONTAINER not set") :=
  ⟨rfl, rfl⟩
